import Mathlib

/-!
Verification development for the SDSS data tutorial notebook
(`04_HowTos/FileService/How_to_use_SDSS_Data.ipynb`).

The notebook's computational content is embedded shallowly:

* a numpy structured array of catalog rows becomes a `List` of `CatalogRow`
  records over an arbitrary linear ordered field `α` (the notebook computes
  with IEEE doubles; all constants involved are decimal fractions, so the
  field embedding is exact, and witnesses instantiate `α := ℚ`);
* elementwise numpy arithmetic becomes `List.map` / per-row record
  arithmetic;
* the transcendental functions `10.0 ** x`, `np.arcsinh` and `np.log` are
  abstracted as explicit function parameters, since the identities proved
  here hold for any interpretation of them;
* `astropy.io.fits` HDU lists become lists of `HDU` records carrying the
  three header fields the notebook reads (`COEFF0`, `COEFF1`, `NAXIS1`)
  and the data payload as a list of rows; numpy row indexing (including
  its negative-index wrap-around) is `numpyRow`; failures (missing HDU,
  IndexError) are `Option.none`;
* the process-wide frame cache becomes explicit state passing of an
  association list, and the storage collaborator a function parameter;
  each call additionally reports how many collaborator fetches it made.
-/

namespace SDSS

variable {α : Type} [LinearOrderedField α]

/-- One catalog row, restricted to the fields the notebook's target
selection actually reads (cells 9–15 of the notebook: MODEL, CMODEL, PSF
and FIBER2 magnitudes in the bands used, plus `devrad_i`). -/
structure CatalogRow (α : Type) where
  modelmag_g : α
  modelmag_r : α
  modelmag_i : α
  modelmag_z : α
  cmodelmag_r : α
  cmodelmag_i : α
  psfmag_r : α
  psfmag_i : α
  psfmag_z : α
  fiber2mag_i : α
  devrad_i : α

/-- The derived per-row record produced by `auxilliary_colors`. -/
structure AuxiliaryColor (α : Type) where
  c_par : α
  c_perp : α
  d_perp : α

/-- Per-row body of `auxilliary_colors` (notebook cell 9): the three fixed
linear combinations of the g/r/i MODEL magnitudes, transcribed from

    aux['c_par'] = (0.7 * (data['modelmag_g'] - data['modelmag_r']) +
                    1.2 * (data['modelmag_r'] - data['modelmag_i'] - 0.18))
    aux['c_perp'] = ((data['modelmag_r'] - data['modelmag_i']) -
                     (data['modelmag_g'] - data['modelmag_r'])/4.0 - 0.18)
    aux['d_perp'] = ((data['modelmag_r'] - data['modelmag_i']) -
                     (data['modelmag_g'] - data['modelmag_r'])/8.0)
-/
def auxRow (row : CatalogRow α) : AuxiliaryColor α where
  c_par := 0.7 * (row.modelmag_g - row.modelmag_r) +
           1.2 * (row.modelmag_r - row.modelmag_i - 0.18)
  c_perp := (row.modelmag_r - row.modelmag_i) -
            (row.modelmag_g - row.modelmag_r) / 4.0 - 0.18
  d_perp := (row.modelmag_r - row.modelmag_i) -
            (row.modelmag_g - row.modelmag_r) / 8.0

/-- `auxilliary_colors` (notebook cell 9): the structured array of
auxiliary colors, one record per input row. -/
def auxilliary_colors (data : List (CatalogRow α)) : List (AuxiliaryColor α) :=
  data.map auxRow

/-- `rdev_i = result['devrad_i']/0.396` (notebook cell 13), the
arcsec-to-pixel conversion applied to the de Vaucouleurs radius. -/
def rdev_i (devrad : α) : α := devrad / 0.396

/-- Per-row body of the `LOWZ` boolean mask (notebook cell 15), transcribed
conjunct by conjunct from

    LOWZ = ((result['cmodelmag_r'] < (13.5 + auxcolor['c_par']/0.3)) &
            (np.abs(auxcolor['c_perp']) < 0.2) &
            (result['cmodelmag_r'] > 16.0) & (result['cmodelmag_r'] < 19.6) &
            ((result['psfmag_r'] - result['cmodelmag_r']) > 0.3))
-/
def LOWZ_row (row : CatalogRow α) (aux : AuxiliaryColor α) : Bool :=
  decide (row.cmodelmag_r < 13.5 + aux.c_par / 0.3) &&
  decide (|aux.c_perp| < 0.2) &&
  decide (row.cmodelmag_r > 16.0) && decide (row.cmodelmag_r < 19.6) &&
  decide (row.psfmag_r - row.cmodelmag_r > 0.3)

/-- Per-row body of the `CMASS` boolean mask (notebook cell 15), transcribed
conjunct by conjunct from

    CMASS = ((result['cmodelmag_i'] < (19.86 + 1.6*(auxcolor['d_perp'] - 0.8))) &
             (result['cmodelmag_i'] > 17.5) & (result['cmodelmag_i'] < 19.9) &
             (auxcolor['d_perp'] > 0.55) &
             ((result['psfmag_i'] - result['modelmag_i']) > (0.2 + 0.2*(20.0 - result['modelmag_i']))) &
             ((result['psfmag_z'] - result['modelmag_z']) > (9.125 - 0.46*result['modelmag_z'])) &
             ((result['modelmag_r'] - result['modelmag_i']) < 2) &
             (result['fiber2mag_i'] < 21.5) &
             (rdev_i < 20))
-/
def CMASS_row (row : CatalogRow α) (aux : AuxiliaryColor α) : Bool :=
  decide (row.cmodelmag_i < 19.86 + 1.6 * (aux.d_perp - 0.8)) &&
  decide (row.cmodelmag_i > 17.5) && decide (row.cmodelmag_i < 19.9) &&
  decide (aux.d_perp > 0.55) &&
  decide (row.psfmag_i - row.modelmag_i > 0.2 + 0.2 * (20.0 - row.modelmag_i)) &&
  decide (row.psfmag_z - row.modelmag_z > 9.125 - 0.46 * row.modelmag_z) &&
  decide (row.modelmag_r - row.modelmag_i < 2) &&
  decide (row.fiber2mag_i < 21.5) &&
  decide (rdev_i row.devrad_i < 20)

/-- The batch `LOWZ` mask, elementwise over the row batch and its derived
auxiliary colors, as the notebook computes it over parallel arrays. -/
def LOWZ (data : List (CatalogRow α)) : List Bool :=
  List.zipWith LOWZ_row data (auxilliary_colors data)

/-- The batch `CMASS` mask, elementwise over the row batch and its derived
auxiliary colors, as the notebook computes it over parallel arrays. -/
def CMASS (data : List (CatalogRow α)) : List Bool :=
  List.zipWith CMASS_row data (auxilliary_colors data)

/-- Spec-side formula for `c_par`, written from the specification text
`c_par = 0.7*(g - r) + 1.2*(r - i - 0.18)`. -/
def c_par_spec (g r i : α) : α := 0.7 * (g - r) + 1.2 * (r - i - 0.18)

/-- Spec-side formula for `c_perp`, written from the specification text
`c_perp = (r - i) - (g - r)/4 - 0.18`. -/
def c_perp_spec (g r i : α) : α := (r - i) - (g - r) / 4 - 0.18

/-- Spec-side formula for `d_perp`, written from the specification text
`d_perp = (r - i) - (g - r)/8`. -/
def d_perp_spec (g r i : α) : α := (r - i) - (g - r) / 8

/-- Spec-side LOWZ predicate, written from the specification text:
`cmodel_r < 13.5 + c_par/0.3` AND `|c_perp| < 0.2` AND
`16.0 < cmodel_r < 19.6` AND `(psf_r - cmodel_r) > 0.3`. -/
def LOWZ_spec (row : CatalogRow α) : Prop :=
  row.cmodelmag_r <
      13.5 + c_par_spec row.modelmag_g row.modelmag_r row.modelmag_i / 0.3 ∧
  |c_perp_spec row.modelmag_g row.modelmag_r row.modelmag_i| < 0.2 ∧
  (16.0 < row.cmodelmag_r ∧ row.cmodelmag_r < 19.6) ∧
  row.psfmag_r - row.cmodelmag_r > 0.3

/-- Spec-side CMASS predicate, written from the specification text:
`cmodel_i < 19.86 + 1.6*(d_perp - 0.8)` AND `17.5 < cmodel_i < 19.9` AND
`d_perp > 0.55` AND `(psf_i - model_i) > 0.2 + 0.2*(20.0 - model_i)` AND
`(psf_z - model_z) > 9.125 - 0.46*model_z` AND `(model_r - model_i) < 2`
AND `fiber2_i < 21.5` AND `devrad_i / 0.396 < 20`. -/
def CMASS_spec (row : CatalogRow α) : Prop :=
  row.cmodelmag_i <
      19.86 + 1.6 * (d_perp_spec row.modelmag_g row.modelmag_r row.modelmag_i - 0.8) ∧
  (17.5 < row.cmodelmag_i ∧ row.cmodelmag_i < 19.9) ∧
  d_perp_spec row.modelmag_g row.modelmag_r row.modelmag_i > 0.55 ∧
  row.psfmag_i - row.modelmag_i > 0.2 + 0.2 * (20.0 - row.modelmag_i) ∧
  row.psfmag_z - row.modelmag_z > 9.125 - 0.46 * row.modelmag_z ∧
  row.modelmag_r - row.modelmag_i < 2 ∧
  row.fiber2mag_i < 21.5 ∧
  row.devrad_i / 0.396 < 20

/-- Claim C1: for every batch of catalog rows with real-valued model
magnitudes g, r, i, `auxilliary_colors` returns, for each row, exactly
`c_par = 0.7*(g - r) + 1.2*(r - i - 0.18)`,
`c_perp = (r - i) - (g - r)/4 - 0.18` and
`d_perp = (r - i) - (g - r)/8`. -/
theorem auxilliary_colors_formula (data : List (CatalogRow α)) :
    auxilliary_colors data =
      data.map (fun row =>
        ⟨c_par_spec row.modelmag_g row.modelmag_r row.modelmag_i,
         c_perp_spec row.modelmag_g row.modelmag_r row.modelmag_i,
         d_perp_spec row.modelmag_g row.modelmag_r row.modelmag_i⟩) := by
  unfold auxilliary_colors
  apply List.map_congr_left
  intro row _
  simp only [auxRow, c_par_spec, c_perp_spec, d_perp_spec, AuxiliaryColor.mk.injEq]
  refine ⟨by norm_num, by norm_num, by norm_num⟩

/-- Claim C2: for every catalog row, the CMASS mask is true if and only if
all of: `cmodel_i < 19.86 + 1.6*(d_perp - 0.8)`, `17.5 < cmodel_i < 19.9`,
`d_perp > 0.55`, `(psf_i - model_i) > 0.2 + 0.2*(20.0 - model_i)`,
`(psf_z - model_z) > 9.125 - 0.46*model_z`, `(model_r - model_i) < 2`,
`fiber2_i < 21.5`, and `devrad_i / 0.396 < 20`. -/
theorem CMASS_mask_iff (row : CatalogRow α) :
    CMASS_row row (auxRow row) = true ↔ CMASS_spec row := by
  have h8 : (8.0 : α) = 8 := by norm_num
  simp only [CMASS_row, CMASS_spec, auxRow, rdev_i, d_perp_spec, gt_iff_lt,
    Bool.and_eq_true, decide_eq_true_eq, h8]
  tauto

/-- Claim C3: for every catalog row, the LOWZ mask is true if and only if
all of: `cmodel_r < 13.5 + c_par/0.3`, `|c_perp| < 0.2`,
`16.0 < cmodel_r < 19.6`, and `(psf_r - cmodel_r) > 0.3`; and in
particular, for every row with `cmodel_r = 19.7` the LOWZ mask is false
regardless of all other fields. -/
theorem LOWZ_mask_spec (row : CatalogRow α) :
    (LOWZ_row row (auxRow row) = true ↔ LOWZ_spec row) ∧
    (row.cmodelmag_r = 19.7 → LOWZ_row row (auxRow row) = false) := by
  constructor
  · have h4 : (4.0 : α) = 4 := by norm_num
    simp only [LOWZ_row, LOWZ_spec, auxRow, c_par_spec, c_perp_spec, gt_iff_lt,
      Bool.and_eq_true, decide_eq_true_eq, h4]
    tauto
  · intro h
    have hlt : ¬ ((19.7 : α) < 19.6) := by norm_num
    simp [LOWZ_row, h, hlt]

/-- Concrete catalog row with `cmodelmag_r = 19.7`, used to witness the
LOWZ boundary clause of claim C3. -/
def row197 : CatalogRow ℚ where
  modelmag_g := 17
  modelmag_r := 16
  modelmag_i := 15
  modelmag_z := 15
  cmodelmag_r := 19.7
  cmodelmag_i := 18
  psfmag_r := 21
  psfmag_i := 19
  psfmag_z := 19
  fiber2mag_i := 20
  devrad_i := 1

/-- Witness for claim C3 at a concrete row with `cmodelmag_r = 19.7`. -/
theorem LOWZ_mask_spec_witness :
    row197.cmodelmag_r = 19.7 ∧ LOWZ_row row197 (auxRow row197) = false :=
  ⟨rfl, (LOWZ_mask_spec row197).2 rfl⟩

/-- Claim C10: for `devrad_i = 7.92` the derived pixel radius
`rdev_i = devrad_i / 0.396` equals exactly 20, so the CMASS conjunct
`rdev_i < 20` is false and CMASS is false at this boundary, while for
`devrad_i = 7.91` the conjunct is true. -/
theorem rdev_boundary :
    rdev_i (7.92 : α) = 20 ∧ ¬ (rdev_i (7.92 : α) < 20) ∧
    rdev_i (7.91 : α) < 20 ∧
    ∀ row : CatalogRow α, row.devrad_i = 7.92 →
      CMASS_row row (auxRow row) = false := by
  have h20 : rdev_i (7.92 : α) = 20 := by unfold rdev_i; norm_num
  refine ⟨h20, by rw [h20]; exact lt_irrefl 20, by unfold rdev_i; norm_num, ?_⟩
  intro row h
  have hlt : ¬ (rdev_i row.devrad_i < 20) := by rw [h, h20]; exact lt_irrefl 20
  simp [CMASS_row, hlt]

/-- Concrete catalog row with `devrad_i = 7.92`, used to witness the CMASS
pixel-radius boundary of claim C10. -/
def rowBoundary : CatalogRow ℚ where
  modelmag_g := 17
  modelmag_r := 16
  modelmag_i := 15
  modelmag_z := 15
  cmodelmag_r := 18
  cmodelmag_i := 18
  psfmag_r := 21
  psfmag_i := 19
  psfmag_z := 19
  fiber2mag_i := 20
  devrad_i := 7.92

/-- Witness for claim C10 at a concrete row with `devrad_i = 7.92`. -/
theorem rdev_boundary_witness :
    rowBoundary.devrad_i = 7.92 ∧
    CMASS_row rowBoundary (auxRow rowBoundary) = false :=
  ⟨rfl, rdev_boundary.2.2.2 rowBoundary rfl⟩

/-- One decoded FITS header-data unit, carrying the three header fields the
notebook reads (`COEFF0`, `COEFF1`, `NAXIS1`) and the data payload as a
list of rows. -/
structure HDU (α : Type) where
  coeff0 : α
  coeff1 : α
  naxis1 : Nat := 0
  data : List (List α) := []

/-- An HDU with zeroed header fields and no data, standing for the blocks
of a file the notebook never touches. -/
def hduEmpty : HDU ℚ := { coeff0 := 0, coeff1 := 0 }

/-- numpy row indexing `data[k, :]`: a nonnegative index selects that row,
a negative index wraps around from the end, and anything else raises
IndexError (modelled as `none`). -/
def numpyRow {β : Type} (data : List β) (k : Int) : Option β :=
  if 0 ≤ k then data.get? k.toNat
  else if 0 ≤ k + data.length then data.get? (k + data.length).toNat
  else none

/-- `extract_spectrum` (notebook cell 38), with file fetching and FITS
decoding abstracted away: the decoded `hdulist` is the input, `tenpow`
interprets the elementwise `10.0 ** x`, and the notebook's

    hdr = hdulist[0].header
    flux = hdulist[0].data[fiber-1, :]
    ivar = hdulist[1].data[fiber-1, :]
    sky = hdulist[6].data[fiber-1, :]
    loglam = hdr['COEFF0'] + hdr['COEFF1']*np.arange(hdr['NAXIS1'], dtype=flux.dtype)
    wavelength = 10.0**loglam
    return wavelength, flux, ivar, sky

becomes a chain of fallible accesses. -/
def extract_spectrum (tenpow : α → α) (hdulist : List (HDU α)) (fiber : Int) :
    Option (List α × List α × List α × List α) :=
  (hdulist.get? 0).bind fun hdu0 =>
  (numpyRow hdu0.data (fiber - 1)).bind fun flux =>
  (hdulist.get? 1).bind fun hdu1 =>
  (numpyRow hdu1.data (fiber - 1)).bind fun ivar =>
  (hdulist.get? 6).bind fun hdu6 =>
  (numpyRow hdu6.data (fiber - 1)).bind fun sky =>
  some ((List.range hdu0.naxis1).map
          (fun (j : Nat) => tenpow (hdu0.coeff0 + hdu0.coeff1 * (j : α))),
        flux, ivar, sky)

/-- `numpyRow` fails exactly when the index is at or beyond the length on
the high side, or wraps past the start on the low side. -/
theorem numpyRow_eq_none_iff {β : Type} (data : List β) (k : Int) :
    numpyRow data k = none ↔ ((data.length : Int) ≤ k ∨ k + data.length < 0) := by
  unfold numpyRow
  by_cases hk : 0 ≤ k
  · rw [if_pos hk, List.get?_eq_none]
    omega
  · rw [if_neg hk]
    by_cases hw : 0 ≤ k + data.length
    · rw [if_pos hw, List.get?_eq_none]
      omega
    · rw [if_neg hw]
      simp only [true_iff]
      omega

/-- A row successfully selected by `numpyRow` is a row of the data block. -/
theorem numpyRow_mem {β : Type} (data : List β) (k : Int) (r : β)
    (h : numpyRow data k = some r) : r ∈ data := by
  unfold numpyRow at h
  by_cases hk : 0 ≤ k
  · rw [if_pos hk] at h
    exact List.get?_mem h
  · rw [if_neg hk] at h
    by_cases hw : 0 ≤ k + data.length
    · rw [if_pos hw] at h
      exact List.get?_mem h
    · rw [if_neg hw] at h
      exact Option.noConfusion h

/-- Claim C4: for every spectrum extraction on a well-formed file (one
whose `NAXIS1` header field of data block 0 equals the flux row length N),
the returned wavelength array has entry `10 ** (COEFF0 + COEFF1 * index)`
at each index in `0..N-1`, where `COEFF0` and `COEFF1` are scalar header
fields of data block 0. -/
theorem extract_spectrum_wavelength (tenpow : α → α) (hdulist : List (HDU α))
    (fiber : Int) (hdu0 : HDU α) (w fl iv sk : List α)
    (h0 : hdulist.get? 0 = some hdu0)
    (hn : hdu0.naxis1 = fl.length)
    (hex : extract_spectrum tenpow hdulist fiber = some (w, fl, iv, sk)) :
    w.length = fl.length ∧
    ∀ j : Nat, j < fl.length →
      w[j]? = some (tenpow (hdu0.coeff0 + hdu0.coeff1 * (j : α))) := by
  unfold extract_spectrum at hex
  rw [h0, Option.some_bind] at hex
  obtain ⟨flux, hflux, hex⟩ := Option.bind_eq_some.mp hex
  obtain ⟨hdu1, hh1, hex⟩ := Option.bind_eq_some.mp hex
  obtain ⟨ivar, hivar, hex⟩ := Option.bind_eq_some.mp hex
  obtain ⟨hdu6, hh6, hex⟩ := Option.bind_eq_some.mp hex
  obtain ⟨sky, hsky, hex⟩ := Option.bind_eq_some.mp hex
  rw [Option.some.injEq, Prod.mk.injEq, Prod.mk.injEq, Prod.mk.injEq] at hex
  obtain ⟨hw, hfl, _, _⟩ := hex
  subst hw
  subst hfl
  refine ⟨by simp [hn], ?_⟩
  intro j hj
  rw [List.getElem?_map, List.getElem?_range (by rw [hn]; exact hj)]
  rfl

/-- A well-formed one-fiber spPlate file: `COEFF0 = 3.5`, `COEFF1 = 0.0001`,
`NAXIS1 = 4`, blocks 0, 1 and 6 each holding one row of four samples. -/
def spPlateGood : List (HDU ℚ) :=
  [{ coeff0 := 3.5, coeff1 := 0.0001, naxis1 := 4, data := [[1, 2, 3, 4]] },
   { coeff0 := 0, coeff1 := 0, data := [[5, 6, 7, 8]] },
   hduEmpty, hduEmpty, hduEmpty, hduEmpty,
   { coeff0 := 0, coeff1 := 0, data := [[9, 10, 11, 12]] }]

/-- Witness for claim C4: extraction from `spPlateGood` at fiber 1 yields a
wavelength array of length 4 whose entries are
`10 ** (3.5 + 0.0001 * index)`. -/
theorem extract_spectrum_wavelength_witness :
    spPlateGood.get? 0 =
      some { coeff0 := 3.5, coeff1 := 0.0001, naxis1 := 4, data := [[1, 2, 3, 4]] } ∧
    ({ coeff0 := 3.5, coeff1 := 0.0001, naxis1 := 4,
       data := [[1, 2, 3, 4]] } : HDU ℚ).naxis1 = ([1, 2, 3, 4] : List ℚ).length ∧
    extract_spectrum id spPlateGood 1 =
      some ((List.range 4).map (fun (j : Nat) => id ((3.5 : ℚ) + 0.0001 * (j : ℚ))),
            [1, 2, 3, 4], [5, 6, 7, 8], [9, 10, 11, 12]) ∧
    (((List.range 4).map (fun (j : Nat) => id ((3.5 : ℚ) + 0.0001 * (j : ℚ)))).length =
        ([1, 2, 3, 4] : List ℚ).length ∧
     ∀ j : Nat, j < ([1, 2, 3, 4] : List ℚ).length →
       ((List.range 4).map (fun (j : Nat) => id ((3.5 : ℚ) + 0.0001 * (j : ℚ))))[j]? =
         some (id ((3.5 : ℚ) + 0.0001 * (j : ℚ)))) :=
  ⟨rfl, rfl, rfl, extract_spectrum_wavelength id spPlateGood 1 _ _ _ _ _ rfl rfl rfl⟩

/-- An spPlate file whose blocks 0, 1 and 6 hold exactly one row each. -/
def spPlateOneRow : List (HDU ℚ) :=
  [{ coeff0 := 0, coeff1 := 0, data := [[1]] },
   { coeff0 := 0, coeff1 := 0, data := [[1]] },
   hduEmpty, hduEmpty, hduEmpty, hduEmpty,
   { coeff0 := 0, coeff1 := 0, data := [[1]] }]

/-- Counterexample to claim C7: fiber 0 lies outside `1 ≤ fiber ≤ num_rows`
(here `num_rows = 1`), yet extraction does not fail — the row index
`fiber - 1 = -1` wraps around (numpy semantics) and yields the last row. -/
theorem extract_spectrum_fiber_zero_accepted :
    ¬ (1 ≤ (0 : Int)) ∧
    extract_spectrum (fun _ => (0 : ℚ)) spPlateOneRow 0 =
      some ([], [1], [1], [1]) :=
  ⟨by decide, rfl⟩

/-- Claim C7 (amended): with blocks 0, 1 and 6 present and all holding
`n` rows, extraction fails exactly when `fiber > n` or `fiber ≤ -n`; a
fiber in `1-n..0` is not rejected (the negative row index wraps around). -/
theorem extract_spectrum_out_of_range (tenpow : α → α) (hdulist : List (HDU α))
    (hdu0 hdu1 hdu6 : HDU α) (n : Nat) (fiber : Int)
    (h0 : hdulist.get? 0 = some hdu0) (h1 : hdulist.get? 1 = some hdu1)
    (h6 : hdulist.get? 6 = some hdu6)
    (l0 : hdu0.data.length = n) (l1 : hdu1.data.length = n)
    (l6 : hdu6.data.length = n) :
    extract_spectrum tenpow hdulist fiber = none ↔
      ((n : Int) < fiber ∨ fiber ≤ -(n : Int)) := by
  have key : ∀ d : List (List α), d.length = n →
      (numpyRow d (fiber - 1) = none ↔ ((n : Int) < fiber ∨ fiber ≤ -(n : Int))) := by
    intro d hd
    rw [numpyRow_eq_none_iff, hd]
    omega
  unfold extract_spectrum
  rw [h0, Option.some_bind]
  cases hf0 : numpyRow hdu0.data (fiber - 1) with
  | none =>
    exact iff_of_true rfl ((key _ l0).mp hf0)
  | some flux =>
    have hc : ¬ ((n : Int) < fiber ∨ fiber ≤ -(n : Int)) := by
      intro hcond
      rw [← key _ l0, hf0] at hcond
      exact Option.noConfusion hcond
    rw [Option.some_bind, h1, Option.some_bind]
    cases hf1 : numpyRow hdu1.data (fiber - 1) with
    | none => exact absurd ((key _ l1).mp hf1) hc
    | some ivar =>
      rw [Option.some_bind, h6, Option.some_bind]
      cases hf6 : numpyRow hdu6.data (fiber - 1) with
      | none => exact absurd ((key _ l6).mp hf6) hc
      | some sky =>
        rw [Option.some_bind]
        exact iff_of_false (by simp) hc

/-- Witness for the amended claim C7 at `spPlateOneRow` with fiber 2: one
row per block, so fiber 2 is out of range and extraction fails. -/
theorem extract_spectrum_out_of_range_witness :
    spPlateOneRow.get? 0 = some { coeff0 := 0, coeff1 := 0, data := [[1]] } ∧
    spPlateOneRow.get? 1 = some { coeff0 := 0, coeff1 := 0, data := [[1]] } ∧
    spPlateOneRow.get? 6 = some { coeff0 := 0, coeff1 := 0, data := [[1]] } ∧
    ({ coeff0 := 0, coeff1 := 0, data := [[1]] } : HDU ℚ).data.length = 1 ∧
    (extract_spectrum (fun _ => (0 : ℚ)) spPlateOneRow 2 = none ↔
      ((1 : Int) < 2 ∨ (2 : Int) ≤ -(1 : Int))) :=
  ⟨rfl, rfl, rfl, rfl,
   extract_spectrum_out_of_range (fun _ => (0 : ℚ)) spPlateOneRow _ _ _ 1 2
     rfl rfl rfl rfl rfl rfl⟩

/-- An spPlate file whose `NAXIS1` header field (5) disagrees with the
actual row length (4) of its data blocks. -/
def spPlateBad : List (HDU ℚ) :=
  [{ coeff0 := 0, coeff1 := 0, naxis1 := 5, data := [[1, 2, 3, 4]] },
   { coeff0 := 0, coeff1 := 0, data := [[1, 2, 3, 4]] },
   hduEmpty, hduEmpty, hduEmpty, hduEmpty,
   { coeff0 := 0, coeff1 := 0, data := [[1, 2, 3, 4]] }]

/-- Counterexample to claim C8: extraction accepts `spPlateBad` (whose
`NAXIS1` disagrees with the data-block row length) and returns a
wavelength array of length 5 alongside a flux array of length 4. -/
theorem extract_spectrum_length_mismatch :
    extract_spectrum (fun _ => (0 : ℚ)) spPlateBad 1 =
      some ((List.range 5).map (fun _ => (0 : ℚ)),
            [1, 2, 3, 4], [1, 2, 3, 4], [1, 2, 3, 4]) ∧
    ((List.range 5).map (fun _ => (0 : ℚ))).length ≠ ([1, 2, 3, 4] : List ℚ).length := by
  refine ⟨rfl, ?_⟩
  simp

/-- Claim C8 (amended): for every successful spectrum extraction from a
file whose blocks 0, 1 and 6 have all their rows of length equal to the
`NAXIS1` header field of block 0, the four returned arrays satisfy
`length(wavelength) = length(flux) = length(ivar) = length(sky)`. -/
theorem extract_spectrum_lengths_agree (tenpow : α → α) (hdulist : List (HDU α))
    (fiber : Int) (hdu0 hdu1 hdu6 : HDU α) (w fl iv sk : List α)
    (h0 : hdulist.get? 0 = some hdu0) (h1 : hdulist.get? 1 = some hdu1)
    (h6 : hdulist.get? 6 = some hdu6)
    (r0 : ∀ r ∈ hdu0.data, r.length = hdu0.naxis1)
    (r1 : ∀ r ∈ hdu1.data, r.length = hdu0.naxis1)
    (r6 : ∀ r ∈ hdu6.data, r.length = hdu0.naxis1)
    (hex : extract_spectrum tenpow hdulist fiber = some (w, fl, iv, sk)) :
    w.length = fl.length ∧ fl.length = iv.length ∧ iv.length = sk.length := by
  unfold extract_spectrum at hex
  rw [h0, Option.some_bind] at hex
  obtain ⟨flux, hflux, hex⟩ := Option.bind_eq_some.mp hex
  rw [h1, Option.some_bind] at hex
  obtain ⟨ivar, hivar, hex⟩ := Option.bind_eq_some.mp hex
  rw [h6, Option.some_bind] at hex
  obtain ⟨sky, hsky, hex⟩ := Option.bind_eq_some.mp hex
  rw [Option.some.injEq, Prod.mk.injEq, Prod.mk.injEq, Prod.mk.injEq] at hex
  obtain ⟨hw, hfl, hiv, hsk⟩ := hex
  subst hw
  subst hfl
  subst hiv
  subst hsk
  have e0 := r0 flux (numpyRow_mem _ _ _ hflux)
  have e1 := r1 ivar (numpyRow_mem _ _ _ hivar)
  have e6 := r6 sky (numpyRow_mem _ _ _ hsky)
  simp [e0, e1, e6]

/-- Witness for the amended claim C8 at `spPlateGood` with fiber 1. -/
theorem extract_spectrum_lengths_agree_witness :
    spPlateGood.get? 0 =
      some { coeff0 := 3.5, coeff1 := 0.0001, naxis1 := 4, data := [[1, 2, 3, 4]] } ∧
    spPlateGood.get? 1 = some { coeff0 := 0, coeff1 := 0, data := [[5, 6, 7, 8]] } ∧
    spPlateGood.get? 6 = some { coeff0 := 0, coeff1 := 0, data := [[9, 10, 11, 12]] } ∧
    extract_spectrum id spPlateGood 1 =
      some ((List.range 4).map (fun (j : Nat) => id ((3.5 : ℚ) + 0.0001 * (j : ℚ))),
            [1, 2, 3, 4], [5, 6, 7, 8], [9, 10, 11, 12]) ∧
    (((List.range 4).map (fun (j : Nat) => id ((3.5 : ℚ) + 0.0001 * (j : ℚ)))).length =
        ([1, 2, 3, 4] : List ℚ).length ∧
     ([1, 2, 3, 4] : List ℚ).length = ([5, 6, 7, 8] : List ℚ).length ∧
     ([5, 6, 7, 8] : List ℚ).length = ([9, 10, 11, 12] : List ℚ).length) :=
  ⟨rfl, rfl, rfl, rfl,
   extract_spectrum_lengths_agree id spPlateGood 1 _ _ _ _ _ _ _
     rfl rfl rfl (by decide) (by decide) (by decide) rfl⟩

/-- Error raised by the image conversion when the requested band has no
softening parameter (Python raises KeyError on the dict access). -/
inductive ImgError
  | InvalidBand

/-- The per-band softening table `b = dict(u=1.4e-10, g=0.9e-10, r=1.2e-10,
i=1.8e-10, z=7.4e-10)` from `asinh_image` (notebook cell 46); a band
outside the table has no entry. -/
def softening (α : Type) [LinearOrderedField α] (band : String) : Option α :=
  if band = "u" then some 1.4e-10
  else if band = "g" then some 0.9e-10
  else if band = "r" then some 1.2e-10
  else if band = "i" then some 1.8e-10
  else if band = "z" then some 7.4e-10
  else none

/-- `asinh_image` (notebook cell 46), with the transcendental `np.arcsinh`
and `np.log` abstracted as function parameters:

    C = -2.5/np.log(10.0)
    b = dict(u=1.4e-10, g=0.9e-10, r=1.2e-10, i=1.8e-10, z=7.4e-10)
    mag = C*(np.arcsinh((image*1.0e-9)/(2.0*b[band])) + np.log(b[band]))
    return mag
-/
def asinh_image (arcsinh log : α → α) (image : List α) (band : String) :
    Except ImgError (List α) :=
  let C : α := -2.5 / log 10.0
  match softening α band with
  | some b =>
      Except.ok (image.map (fun x => C * (arcsinh ((x * 1.0e-9) / (2.0 * b)) + log b)))
  | none => Except.error ImgError.InvalidBand

/-- Claim C5: for every band in {u,g,r,i,z} and every flux array `image`,
`asinh_image` returns elementwise `C * (asinh(image*1e-9 / (2*b)) + ln(b))`
with `C = -2.5/ln(10)` and `b` from the table {u: 1.4e-10, g: 0.9e-10,
r: 1.2e-10, i: 1.8e-10, z: 7.4e-10} (so at `image = 0` the result is
`C * ln(b)`); for every band not in {u,g,r,i,z} it fails with InvalidBand. -/
theorem asinh_image_formula (arcsinh log : α → α) (image : List α) (band : String) :
    (softening α "u" = some 1.4e-10 ∧ softening α "g" = some 0.9e-10 ∧
     softening α "r" = some 1.2e-10 ∧ softening α "i" = some 1.8e-10 ∧
     softening α "z" = some 7.4e-10) ∧
    (∀ b : α, softening α band = some b →
      asinh_image arcsinh log image band =
        Except.ok (image.map (fun x =>
          -2.5 / log 10 * (arcsinh (x * 1e-9 / (2 * b)) + log b)))) ∧
    (∀ b : α, softening α band = some b → arcsinh 0 = 0 →
      asinh_image arcsinh log [0] band =
        Except.ok [-2.5 / log 10 * log b]) ∧
    (band ∉ (["u", "g", "r", "i", "z"] : List String) →
      asinh_image arcsinh log image band = Except.error ImgError.InvalidBand) := by
  have h10 : (10.0 : α) = 10 := by norm_num
  have h19 : (1.0e-9 : α) = 1e-9 := by norm_num
  have h2 : (2.0 : α) = 2 := by norm_num
  refine ⟨⟨rfl, rfl, rfl, rfl, rfl⟩, ?_, ?_, ?_⟩
  · intro b hb
    simp only [asinh_image, hb, h10, h19, h2]
  · intro b hb h0
    simp only [asinh_image, hb, h10, h19, h2, List.map_cons, List.map_nil,
      zero_mul, zero_div, h0, zero_add]
  · intro hnot
    simp only [List.mem_cons, List.not_mem_nil, or_false, not_or] at hnot
    obtain ⟨hu, hg, hr, hi, hz⟩ := hnot
    simp only [asinh_image, softening, if_neg hu, if_neg hg, if_neg hr,
      if_neg hi, if_neg hz]

/-- Witness for claim C5 with band r (and the invalid band x), interpreting
both transcendental functions as the identity. -/
theorem asinh_image_formula_witness :
    softening ℚ "r" = some 1.2e-10 ∧
    asinh_image (id : ℚ → ℚ) id [0] "r" =
      Except.ok ([(0 : ℚ)].map (fun x =>
        -2.5 / id 10 * (id (x * 1e-9 / (2 * 1.2e-10)) + id 1.2e-10))) ∧
    id (0 : ℚ) = 0 ∧
    asinh_image (id : ℚ → ℚ) id [0] "r" = Except.ok [-2.5 / id 10 * id 1.2e-10] ∧
    "x" ∉ (["u", "g", "r", "i", "z"] : List String) ∧
    asinh_image (id : ℚ → ℚ) id ([] : List ℚ) "x" = Except.error ImgError.InvalidBand :=
  ⟨rfl,
   (asinh_image_formula id id [0] "r").2.1 1.2e-10 rfl,
   rfl,
   (asinh_image_formula id id [0] "r").2.2.1 1.2e-10 rfl rfl,
   by decide,
   (asinh_image_formula id id ([] : List ℚ) "x").2.2.2 (by decide)⟩

/-- Zero-padded decimal rendering of `n` to width `w`, as Python's `{:0wd}`
format specifier. -/
def padZeros (w : Nat) (n : Nat) : String :=
  String.mk (List.replicate (w - (toString n).length) '0') ++ toString n

/-- The frame path template of `extract_frame` (notebook cell 46):

    fm = '{0}eboss/photoObj/frames/301/{1:d}/{2:d}/frame-{3}-{1:06d}-{2:d}-{4:04d}.fits.bz2'.format(sas, run, camcol, band, field)
-/
def framePath (sas : String) (run camcol field : Nat) (band : String) : String :=
  sas ++ "eboss/photoObj/frames/301/" ++ toString run ++ "/" ++ toString camcol ++
    "/frame-" ++ band ++ "-" ++ padZeros 6 run ++ "-" ++ toString camcol ++ "-" ++
    padZeros 4 field ++ ".fits.bz2"

/-- `extract_frame` (notebook cell 46) with the fetch-and-decode pipeline
(`sc.get`, bz2 decompression, FITS decoding, and taking `hdulist[0].data`)
abstracted as the collaborator `fetchDecode`, and the process-wide
`extract_frame_cache` dictionary passed as explicit state. The result is
the updated cache, the returned image, and the number of collaborator
invocations this call made:

    fm = '{0}eboss/photoObj/frames/301/{1:d}/{2:d}/frame-{3}-{1:06d}-{2:d}-{4:04d}.fits.bz2'.format(sas, run, camcol, band, field)
    if fm not in extract_frame_cache:
        with BZ2File(BytesIO(sc.get(fm, mode='binary'))) as cf:
            with fits.open(cf) as hdulist:
                extract_frame_cache[fm] = hdulist[0].data
    return extract_frame_cache[fm]
-/
def extract_frame (fetchDecode : String → List (List α))
    (extract_frame_cache : List (String × List (List α)))
    (run camcol field : Nat) (band : String) (sas : String) :
    List (String × List (List α)) × List (List α) × Nat :=
  let fm := framePath sas run camcol field band
  match extract_frame_cache.lookup fm with
  | some img => (extract_frame_cache, img, 0)
  | none =>
      let img := fetchDecode fm
      ((fm, img) :: extract_frame_cache, img, 1)

omit [LinearOrderedField α] in
/-- Claim C6: for a pair of consecutive `extract_frame` calls with
identical (run, column, field, band) arguments on a cache not yet holding
the resolved path, the storage collaborator is invoked exactly once (once
by the first call, zero times by the second); the second call returns the
memoized array and leaves the cache unchanged; and the first call only
prepends to the cache, so no entry is ever evicted or invalidated. -/
theorem extract_frame_memoization (fetchDecode : String → List (List α))
    (cache : List (String × List (List α))) (run camcol field : Nat)
    (band sas : String)
    (h : cache.lookup (framePath sas run camcol field band) = none) :
    (extract_frame fetchDecode cache run camcol field band sas).2.2 = 1 ∧
    (extract_frame fetchDecode
        (extract_frame fetchDecode cache run camcol field band sas).1
        run camcol field band sas).2.2 = 0 ∧
    (extract_frame fetchDecode
        (extract_frame fetchDecode cache run camcol field band sas).1
        run camcol field band sas).2.1 =
      (extract_frame fetchDecode cache run camcol field band sas).2.1 ∧
    (extract_frame fetchDecode
        (extract_frame fetchDecode cache run camcol field band sas).1
        run camcol field band sas).1 =
      (extract_frame fetchDecode cache run camcol field band sas).1 ∧
    (extract_frame fetchDecode cache run camcol field band sas).1 =
      (framePath sas run camcol field band,
       fetchDecode (framePath sas run camcol field band)) :: cache := by
  have h1 : extract_frame fetchDecode cache run camcol field band sas =
      ((framePath sas run camcol field band,
        fetchDecode (framePath sas run camcol field band)) :: cache,
       fetchDecode (framePath sas run camcol field band), 1) := by
    simp only [extract_frame, h]
  have h2 : extract_frame fetchDecode
      ((framePath sas run camcol field band,
        fetchDecode (framePath sas run camcol field band)) :: cache)
      run camcol field band sas =
      (((framePath sas run camcol field band,
         fetchDecode (framePath sas run camcol field band)) :: cache),
       fetchDecode (framePath sas run camcol field band), 0) := by
    simp only [extract_frame, List.lookup, beq_self_eq_true]
  rw [h1, h2]
  exact ⟨rfl, rfl, rfl, rfl, rfl⟩

/-- Witness for claim C6: two consecutive calls for frame
(run 6122, camcol 1, field 13, band r) starting from the empty cache, with
a constant collaborator stub. -/
theorem extract_frame_memoization_witness :
    ([] : List (String × List (List ℚ))).lookup
        (framePath "sdss_dr14://" 6122 1 13 "r") = none ∧
    (extract_frame (fun _ => [[1]]) ([] : List (String × List (List ℚ)))
        6122 1 13 "r" "sdss_dr14://").2.2 = 1 ∧
    (extract_frame (fun _ => [[1]])
        (extract_frame (fun _ => [[1]]) ([] : List (String × List (List ℚ)))
          6122 1 13 "r" "sdss_dr14://").1
        6122 1 13 "r" "sdss_dr14://").2.2 = 0 ∧
    (extract_frame (fun _ => [[1]])
        (extract_frame (fun _ => [[1]]) ([] : List (String × List (List ℚ)))
          6122 1 13 "r" "sdss_dr14://").1
        6122 1 13 "r" "sdss_dr14://").2.1 =
      (extract_frame (fun _ => [[1]]) ([] : List (String × List (List ℚ)))
        6122 1 13 "r" "sdss_dr14://").2.1 ∧
    (extract_frame (fun _ => [[1]])
        (extract_frame (fun _ => [[1]]) ([] : List (String × List (List ℚ)))
          6122 1 13 "r" "sdss_dr14://").1
        6122 1 13 "r" "sdss_dr14://").1 =
      (extract_frame (fun _ => [[1]]) ([] : List (String × List (List ℚ)))
        6122 1 13 "r" "sdss_dr14://").1 ∧
    (extract_frame (fun _ => [[1]]) ([] : List (String × List (List ℚ)))
        6122 1 13 "r" "sdss_dr14://").1 =
      [(framePath "sdss_dr14://" 6122 1 13 "r", [[1]])] :=
  ⟨rfl, extract_frame_memoization (fun _ => [[1]]) [] 6122 1 13 "r" "sdss_dr14://" rfl⟩

end SDSS
